import Mathlib

/-!
Verification of the response-normalization and conversational-state core of a
Streamlit front-end over the Mistral agents API.

The repository's local logic walks heterogeneous response payloads (string
content, list-of-dict content, attribute-bearing objects), extracts text,
tool-call records, handoff records and file references, executes two local
mock functions (interest-rate lookup, loan amortization) and maintains a
per-feature append-only chat history.  This file gives a shallow embedding of
that logic and proves the testable properties stated in the design document.

Modelling conventions:
* Python dicts with string values are association lists `List (String × String)`;
  JSON values are the inductive `Json`; `dict.get` with a default is `kvGet`
  resp. `dictGet` (the latter fails, as Python does, when the receiver is not
  a dict).
* Attribute-bearing payload objects are records of `Option` fields; `hasattr`
  is `Option.isSome`.
* Python numbers are exact rationals `ℚ`.  Python `round(x, 2)` (banker's
  rounding) is `round2`, decimal half-to-even rounding of the exact rational.
  Python `**` is `qpow`, faithful for the nonnegative integer exponents the
  verified flows use.
* Fallible Python code (division by zero, attribute errors, JSON parse
  failures, transport failures) is modelled with `Except String` / `Option`;
  a `try/except` block is a `match` on the `Except` value.
-/

namespace MistralAgentsApp

/-- JSON values, the result type of `json.loads` on function-call argument
strings and the payload type of locally produced function results. -/
inductive Json where
  | null : Json
  | str (s : String) : Json
  | num (q : ℚ) : Json
  | bool (b : Bool) : Json
  | arr (elems : List Json) : Json
  | obj (fields : List (String × Json)) : Json

/-- Key lookup in a string-valued dict (Python `dict.get(k)` on a dict whose
values are strings). -/
def kvGet (fields : List (String × String)) (k : String) : Option String :=
  match fields with
  | [] => none
  | (k', v) :: rest => if k' = k then some v else kvGet rest k

/-- Key lookup in a JSON object's field list. -/
def jlookup (fields : List (String × Json)) (k : String) : Option Json :=
  match fields with
  | [] => none
  | (k', v) :: rest => if k' = k then some v else jlookup rest k

/-- Python `d.get(k, default)` on a JSON value: succeeds on a dict, raises
`AttributeError` (modelled as `Except.error`) on anything else. -/
def dictGet (j : Json) (k : String) (default : Json) : Except String Json :=
  match j with
  | Json.obj fields => Except.ok ((jlookup fields k).getD default)
  | _ => Except.error "AttributeError: object has no attribute get"

/-- Coercion of a JSON value to a string; any other shape raises `TypeError`
where the Python code would apply a string method to a non-string. -/
def asString (j : Json) : Except String String :=
  match j with
  | Json.str s => Except.ok s
  | _ => Except.error "TypeError: expected str"

/-- Coercion of a JSON value to a number; any other shape raises `TypeError`
where the Python code would do arithmetic on a non-number. -/
def asNumber (j : Json) : Except String ℚ :=
  match j with
  | Json.num q => Except.ok q
  | _ => Except.error "TypeError: expected number"

/-- An attribute-bearing content sub-item (an object without a `get` method);
each payload attribute the source ever reads is an optional field, `hasattr`
being `Option.isSome`. -/
structure AttrItem where
  ty : Option String := none
  text : Option String := none
  tool : Option String := none
  title : Option String := none
  url : Option String := none
  source : Option String := none
  file_id : Option String := none
  file_name : Option String := none
  file_type : Option String := none
deriving DecidableEq

/-- A content sub-item of a message-output payload item: either a key/value
mapping (exposes `get`) or an attribute-bearing object. -/
inductive ContentItem where
  | kv (fields : List (String × String)) : ContentItem
  | attr (a : AttrItem) : ContentItem
deriving DecidableEq

/-- The content of a message-output payload item: a single string or an
ordered sequence of content sub-items. -/
inductive MsgContent where
  | str (s : String) : MsgContent
  | items (l : List ContentItem) : MsgContent
deriving DecidableEq

/-- Text contributed by one content sub-item, following the dual-path
extraction of `function_calls.py` lines 229-238 (identical in
`agent_orchestration.py`): a dict-like item contributes its `text` value when
its `type` value is `"text"`; an attribute-like item contributes its `text`
attribute when its `type` attribute exists, equals `"text"`, and a `text`
attribute is present; everything else contributes nothing. -/
def contentItemText (ci : ContentItem) : String :=
  match ci with
  | ContentItem.kv fields =>
      if kvGet fields "type" = some "text" then (kvGet fields "text").getD "" else ""
  | ContentItem.attr a =>
      match a.ty with
      | none => ""
      | some t =>
          if t = "text" then (match a.text with | some s => s | none => "") else ""

/-- Left-to-right accumulation of the text of a list of content sub-items. -/
def itemsText : List ContentItem → String
  | [] => ""
  | ci :: rest => contentItemText ci ++ itemsText rest

/-- Text contributed by one message-output item: string content verbatim,
list content via `itemsText`. -/
def msgContentText (c : MsgContent) : String :=
  match c with
  | MsgContent.str s => s
  | MsgContent.items l => itemsText l

/- ### Local tool executor: interest-rate lookup (`get_interest_rate`) -/

/-- One row of the fixed mock rate table.  The source stores the rate as a
float literal and renders it with an f-string; `rate` holds exactly that
rendering. -/
structure RateInfo where
  rate : String
  name : String
  last_updated : String
deriving DecidableEq

/-- The fixed region table of `get_interest_rate`. -/
def rates : List (String × RateInfo) :=
  [ ("us", ⟨"5.5", "Federal Reserve", "2023-12-13"⟩)
  , ("ecb", ⟨"4.0", "European Central Bank", "2023-12-14"⟩)
  , ("uk", ⟨"5.25", "Bank of England", "2023-12-15"⟩)
  , ("japan", ⟨"-0.1", "Bank of Japan", "2023-12-10"⟩)
  , ("australia", ⟨"4.35", "Reserve Bank of Australia", "2023-12-05"⟩)
  , ("canada", ⟨"5.0", "Bank of Canada", "2023-12-06"⟩) ]

/-- Result of `get_interest_rate`: the success record or the error record. -/
inductive RateResult where
  | ok (region date interest_rate central_bank last_updated : String) : RateResult
  | err (error : String) (available_regions : List String) : RateResult
deriving DecidableEq

/-- ASCII lowercasing of a string, as Python's `str.lower` acts on the ASCII
region keys used here (character-list form of core's `String.toLower`, which
maps `Char.toLower` over the characters). -/
def strLower (s : String) : String := String.mk (s.data.map Char.toLower)

/-- Python's `if not date: date = datetime.now().strftime(...)`: both `None`
and the empty string are replaced by today's date. -/
def resolveDate (date : Option String) (today : String) : String :=
  match date with
  | none => today
  | some d => if d = "" then today else d

/-- Lookup of a lowercased region key in the fixed rate table. -/
def findRate (key : String) : Option RateInfo :=
  (rates.find? (fun p => p.1 == key)).map Prod.snd

/-- Embedding of `get_interest_rate(region, date=None)`.  `today` stands for
`datetime.now().strftime("%Y-%m-%d")`. -/
def get_interest_rate (region : String) (date : Option String) (today : String) : RateResult :=
  match findRate (strLower region) with
  | some info =>
      RateResult.ok region (resolveDate date today) (info.rate ++ "%") info.name
        info.last_updated
  | none =>
      RateResult.err ("No interest rate data available for " ++ region)
        (rates.map Prod.fst)

/-- The entry-determined fields of a rate-lookup result (everything except
the echoed region and, for errors, the region-mentioning message). -/
def rateOutcome (r : RateResult) : Option (String × String × String) :=
  match r with
  | RateResult.ok _ _ ir cb lu => some (ir, cb, lu)
  | RateResult.err _ _ => none

/- ### Local tool executor: loan amortization (`calculate_loan_payment`) -/

/-- Decimal half-to-even rounding of a rational to an integer, the rounding
mode of Python's `round`. -/
def roundHalfEven (q : ℚ) : ℤ :=
  let n := q.floor
  let frac := q - (n : ℚ)
  if frac < 1 / 2 then n
  else if 1 / 2 < frac then n + 1
  else if n % 2 = 0 then n else n + 1

/-- Python `round(q, 2)` on the exact rational value. -/
def round2 (q : ℚ) : ℚ := (roundHalfEven (q * 100) : ℚ) / 100

/-- Python `x ** e` for rationals; faithful when `e` is a nonnegative integer
(`e.den = 1`, `0 ≤ e.num`), which is the only regime the verified flows
exercise. -/
def qpow (x : ℚ) (e : ℚ) : ℚ := x ^ e.num.toNat

/-- Division that fails (Python `ZeroDivisionError`) on a zero divisor. -/
def safeDiv (a b : ℚ) : Option ℚ := if b = 0 then none else some (a / b)

/-- The return dict of `calculate_loan_payment`, field for field.  The source
renders `annual_interest_rate` as the f-string of the input number followed by
`"%"`; the numeric value is kept here since no verified property inspects the
rendering. -/
structure LoanResult where
  principal : ℚ
  annual_interest_rate : ℚ
  term_years : ℚ
  monthly_payment : ℚ
  total_payment : ℚ
  total_interest : ℚ
  number_of_payments : ℚ
deriving DecidableEq

/-- Embedding of `calculate_loan_payment(principal, annual_interest_rate,
term_years)`: monthly rate and payment count, the zero-rate flat branch, the
annuity branch, and 2-decimal rounding of the three derived outputs.  A zero
divisor makes the whole call fail, as the Python division would. -/
def calculate_loan_payment (principal annual_interest_rate term_years : ℚ) :
    Option LoanResult :=
  let monthly_rate := annual_interest_rate / 100 / 12
  let payments := term_years * 12
  let mp : Option ℚ :=
    if monthly_rate = 0 then
      safeDiv principal payments
    else
      safeDiv (principal * (monthly_rate * qpow (1 + monthly_rate) payments))
        (qpow (1 + monthly_rate) payments - 1)
  match mp with
  | none => none
  | some monthly_payment =>
      let total_payment := monthly_payment * payments
      let total_interest := total_payment - principal
      some
        { principal := principal
        , annual_interest_rate := annual_interest_rate
        , term_years := term_years
        , monthly_payment := round2 monthly_payment
        , total_payment := round2 total_payment
        , total_interest := round2 total_interest
        , number_of_payments := payments }

/-- Loan record built from the specification's formulas: monthlyRate =
annualRate/100/12, totalPayments = termYears*12, the flat branch when the
monthly rate is exactly zero, otherwise the standard annuity formula
principal × monthlyRate × (1+monthlyRate)^totalPayments /
((1+monthlyRate)^totalPayments − 1); the three derived outputs rounded to two
decimals, inputs and the payment count echoed unrounded. -/
def loanPaymentSpec (p r t : ℚ) : LoanResult :=
  let monthlyRate := r / 100 / 12
  let totalPayments := t * 12
  let monthlyPayment :=
    if monthlyRate = 0 then p / totalPayments
    else p * monthlyRate * qpow (1 + monthlyRate) totalPayments /
      (qpow (1 + monthlyRate) totalPayments - 1)
  { principal := p
  , annual_interest_rate := r
  , term_years := t
  , monthly_payment := round2 monthlyPayment
  , total_payment := round2 (monthlyPayment * totalPayments)
  , total_interest := round2 (monthlyPayment * totalPayments - p)
  , number_of_payments := totalPayments }

/- ### Function-calls feature (`display_function_calls_page`) -/

/-- The `function` attribute of a raw tool call (name and JSON-encoded
argument string, each possibly absent). -/
structure RawFunction where
  name : Option String := none
  arguments : Option String := none

/-- A raw tool-call payload item; `function = none` covers both a missing and
a falsy `function` attribute, which the source skips alike. -/
structure RawToolCall where
  id : Option String := none
  function : Option RawFunction := none

/-- An output item of a function-calls response payload, classified by its
`type` discriminant: a message output, a `tool.calls` item (whose
`tool_calls` attribute may be absent), or anything else. -/
inductive FCOutput where
  | message (content : MsgContent) : FCOutput
  | toolCalls (tool_calls : Option (List RawToolCall)) : FCOutput
  | other : FCOutput

/-- The accumulated `current_response` text of the initial payload walk
(`function_calls.py` lines 222-238): message outputs contribute their text in
payload order, all other items contribute nothing. -/
def fcCurrentResponse : List FCOutput → String
  | [] => ""
  | FCOutput.message c :: rest => msgContentText c ++ fcCurrentResponse rest
  | _ :: rest => fcCurrentResponse rest

/-- A pending function-call record `{tool_call_id, function_name, arguments}`
produced by the tool-call extraction. -/
structure PendingCall where
  tool_call_id : String
  function_name : String
  arguments : Json

/-- Extraction of one raw tool call (`function_calls.py` lines 243-267):
skipped when the `function` attribute is missing/falsy; id and name default
to the empty string; the argument string is parsed as JSON (`parse` stands
for `json.loads`), a parse failure wrapping the raw string under the
`"raw_args"` sentinel key, a missing argument string leaving the empty
mapping. -/
def extractToolCall (parse : String → Option Json) (tc : RawToolCall) :
    Option PendingCall :=
  match tc.function with
  | none => none
  | some f =>
      some
        { tool_call_id := tc.id.getD ""
        , function_name := f.name.getD ""
        , arguments :=
            match f.arguments with
            | none => Json.obj []
            | some s =>
                match parse s with
                | some j => j
                | none => Json.obj [("raw_args", Json.str s)] }

/-- All pending function calls of a payload, in payload order. -/
def extractFunctionCalls (parse : String → Option Json) : List FCOutput → List PendingCall
  | [] => []
  | FCOutput.toolCalls tcs :: rest =>
      (match tcs with
       | some l => l.filterMap (extractToolCall parse)
       | none => []) ++ extractFunctionCalls parse rest
  | _ :: rest => extractFunctionCalls parse rest

/-- JSON rendering of a rate-lookup result, as `get_interest_rate`'s return
dict. -/
def rateResultJson (r : RateResult) : Json :=
  match r with
  | RateResult.ok region date ir cb lu =>
      Json.obj
        [ ("region", Json.str region)
        , ("date", Json.str date)
        , ("interest_rate", Json.str ir)
        , ("central_bank", Json.str cb)
        , ("last_updated", Json.str lu) ]
  | RateResult.err msg regions =>
      Json.obj
        [ ("error", Json.str msg)
        , ("available_regions", Json.arr (regions.map Json.str)) ]

/-- JSON rendering of a loan-calculation result, as `calculate_loan_payment`'s
return dict (the source renders `annual_interest_rate` as a percent string;
the numeric value is kept, see `LoanResult`). -/
def loanResultJson (r : LoanResult) : Json :=
  Json.obj
    [ ("principal", Json.num r.principal)
    , ("annual_interest_rate", Json.num r.annual_interest_rate)
    , ("term_years", Json.num r.term_years)
    , ("monthly_payment", Json.num r.monthly_payment)
    , ("total_payment", Json.num r.total_payment)
    , ("total_interest", Json.num r.total_interest)
    , ("number_of_payments", Json.num r.number_of_payments) ]

/-- Dispatch of one pending call to the local executors (`function_calls.py`
lines 270-285): argument values are fetched with `dict.get` and their
defaults (`""` for region, `None` for date, `0` for the loan numbers); an
unknown function name produces no result (`Except.ok none`); a failing
executor (division by zero) or a malformed argument value raises. -/
def execFunction (today : String) (c : PendingCall) : Except String (Option Json) :=
  if c.function_name = "get_interest_rate" then do
    let regionJ ← dictGet c.arguments "region" (Json.str "")
    let dateJ ← dictGet c.arguments "date" Json.null
    let region ← asString regionJ
    let date ←
      match dateJ with
      | Json.null => Except.ok (none : Option String)
      | Json.str s => Except.ok (some s)
      | _ => Except.error "TypeError: unsupported date value"
    Except.ok (some (rateResultJson (get_interest_rate region date today)))
  else if c.function_name = "calculate_loan_payment" then do
    let p ← asNumber (← dictGet c.arguments "principal" (Json.num 0))
    let r ← asNumber (← dictGet c.arguments "annual_interest_rate" (Json.num 0))
    let t ← asNumber (← dictGet c.arguments "term_years" (Json.num 0))
    match calculate_loan_payment p r t with
    | none => Except.error "division by zero"
    | some res => Except.ok (some (loanResultJson res))
  else
    Except.ok none

/-- A completed function-result record `{tool_call_id, function_name,
result}`. -/
structure FuncResult where
  tool_call_id : String
  function_name : String
  result : Json

/-- Text extraction from a continuation response (`function_calls.py` lines
303-310): unlike the initial walk this path calls `content_item.get`
unconditionally, so an attribute-style sub-item raises `AttributeError`. -/
def contItemText (ci : ContentItem) : Except String String :=
  match ci with
  | ContentItem.kv fields =>
      Except.ok
        (if kvGet fields "type" = some "text" then (kvGet fields "text").getD "" else "")
  | ContentItem.attr _ => Except.error "AttributeError: object has no attribute get"

/-- The `final_response` contribution of one continuation payload. -/
def contResponseText (outputs : List FCOutput) : Except String String :=
  outputs.foldlM
    (fun acc o =>
      match o with
      | FCOutput.message (MsgContent.str s) => Except.ok (acc ++ s)
      | FCOutput.message (MsgContent.items l) =>
          l.foldlM (fun acc ci => do pure (acc ++ (← contItemText ci))) acc
      | _ => Except.ok acc)
    ""

/-- Execution loop over the pending calls (`function_calls.py` lines
270-310): each call with a (truthy) result is recorded and the conversation
continued — `cont` stands for `client.beta.conversations.continued`, keyed by
the tool-call id and the serialized result — accumulating `final_response`
from the continuation payloads in order. -/
def runCalls (today : String) (cont : String → Json → List FCOutput)
    (calls : List PendingCall) : Except String (List FuncResult × String) :=
  calls.foldlM
    (fun acc c => do
      match ← execFunction today c with
      | none => pure acc
      | some resultJ => do
          let t ← contResponseText (cont c.tool_call_id resultJ)
          pure (acc.1 ++ [⟨c.tool_call_id, c.function_name, resultJ⟩], acc.2 ++ t))
    ([], "")

/-- One chat-history entry of the function-calls feature.  The user entry of
the source carries only role and content; the record's list fields default to
empty for it. -/
structure FCMsg where
  role : String
  content : String
  function_calls : List PendingCall := []
  function_results : List FuncResult := []

/-- Processing of one successfully received response payload
(`function_calls.py` lines 214-322): extract the initial text and the pending
calls, run the execution loop, and record the assistant turn whose content is
the continuation text — or the initial text when no function call was
requested. -/
def runFCTurn (today : String) (parse : String → Option Json)
    (cont : String → Json → List FCOutput) (outputs : List FCOutput) :
    Except String FCMsg := do
  let current_response := fcCurrentResponse outputs
  let function_calls := extractFunctionCalls parse outputs
  let (function_results, finalFromConts) ← runCalls today cont function_calls
  let final_response := if function_calls.isEmpty then current_response else finalFromConts
  Except.ok
    { role := "assistant"
    , content := final_response
    , function_calls := function_calls
    , function_results := function_results }

/-- One submit of the function-calls page after agent creation succeeded
(`function_calls.py` lines 200-332): the user turn is appended first; the
whole remote interaction runs inside one `try` whose `except` appends an
error-content assistant turn instead of raising. -/
def runFunctionCallsSubmit (today : String) (parse : String → Option Json)
    (cont : String → Json → List FCOutput)
    (remote : Except String (List FCOutput))
    (history : List FCMsg) (user_prompt : String) : List FCMsg :=
  let h := history ++ [{ role := "user", content := user_prompt }]
  match (do runFCTurn today parse cont (← remote)) with
  | Except.ok m => h ++ [m]
  | Except.error e =>
      h ++ [{ role := "assistant", content := "Error: " ++ e }]

/- ### Web-search feature (`display_web_search_page`) -/

/-- A web-search source record `{title, url, source}`, every missing field
defaulted to the empty string. -/
structure SourceRec where
  title : String
  url : String
  source : String
deriving DecidableEq

/-- An output item of a web-search response payload. -/
inductive WSOutput where
  | message (content : MsgContent) : WSOutput
  | other : WSOutput

/-- Per-sub-item step of the web-search walk (`web_search.py` lines 131-166):
a text fragment, or a source record for a `tool_reference` sub-item whose
tool is `web_search` or `web_search_premium`, on either access shape. -/
def wsItem (ci : ContentItem) : String × Option SourceRec :=
  match ci with
  | ContentItem.kv fields =>
      if kvGet fields "type" = some "text" then ((kvGet fields "text").getD "", none)
      else if kvGet fields "type" = some "tool_reference" then
        match kvGet fields "tool" with
        | some tl =>
            if tl = "web_search" ∨ tl = "web_search_premium" then
              ("", some ⟨(kvGet fields "title").getD "", (kvGet fields "url").getD "",
                (kvGet fields "source").getD ""⟩)
            else ("", none)
        | none => ("", none)
      else ("", none)
  | ContentItem.attr a =>
      match a.ty with
      | none => ("", none)
      | some t =>
          if t = "text" then (a.text.getD "", none)
          else if t = "tool_reference" then
            match a.tool with
            | some tl =>
                if tl = "web_search" ∨ tl = "web_search_premium" then
                  ("", some ⟨a.title.getD "", a.url.getD "", a.source.getD ""⟩)
                else ("", none)
            | none => ("", none)
          else ("", none)

/-- Left-to-right accumulation of text and sources over content sub-items. -/
def wsItems : List ContentItem → String × List SourceRec
  | [] => ("", [])
  | ci :: rest =>
      let q := wsItem ci
      let p := wsItems rest
      (q.1 ++ p.1, (match q.2 with | some s => [s] | none => []) ++ p.2)

/-- Text and sources of one message content. -/
def wsMsgContent (c : MsgContent) : String × List SourceRec :=
  match c with
  | MsgContent.str s => (s, [])
  | MsgContent.items l => wsItems l

/-- The full web-search payload walk (`web_search.py` lines 124-166). -/
def wsExtract : List WSOutput → String × List SourceRec
  | [] => ("", [])
  | WSOutput.message c :: rest =>
      let q := wsMsgContent c
      let p := wsExtract rest
      (q.1 ++ p.1, q.2 ++ p.2)
  | WSOutput.other :: rest => wsExtract rest

/-- One chat-history entry of the web-search feature. -/
structure WSMsg where
  role : String
  content : String
  sources : List SourceRec := []
deriving DecidableEq

/-- One submit of the web-search page after agent creation succeeded
(`web_search.py` lines 106-182): user turn appended, then either the
normalized assistant turn or — when the remote call raised — an
error-content assistant turn. -/
def runWebSearchSubmit (remote : Except String (List WSOutput))
    (history : List WSMsg) (user_prompt : String) : List WSMsg :=
  let h := history ++ [{ role := "user", content := user_prompt }]
  match remote with
  | Except.ok outputs =>
      let p := wsExtract outputs
      h ++ [{ role := "assistant", content := p.1, sources := p.2 }]
  | Except.error e =>
      h ++ [{ role := "assistant", content := "Error: " ++ e }]

/- ### Agent-orchestration feature (`display_agent_orchestration_page`) -/

/-- The `info` object of a tool-execution item: a plain mapping, an
attribute-bearing object whose `__dict__` is readable, or an object whose
`__dict__` extraction fails (the `except` arm of the source's `try`). -/
inductive InfoObj where
  | mapping (m : List (String × String)) : InfoObj
  | objDict (m : List (String × String)) : InfoObj
  | objBad : InfoObj
deriving DecidableEq

/-- Normalization of an optional info object to a plain mapping
(`agent_orchestration.py` lines 231-242): missing info and failing
`__dict__` extraction both yield the empty mapping. -/
def extractInfo : Option InfoObj → List (String × String)
  | none => []
  | some (InfoObj.mapping m) => m
  | some (InfoObj.objDict m) => m
  | some InfoObj.objBad => []

/-- A handoff record `{agent_name, agent_id, inputs}`. -/
structure HandoffRec where
  agent_name : String
  agent_id : String
  inputs : String
deriving DecidableEq

/-- A tool-execution record `{tool_name, info}`. -/
structure ToolExecRec where
  tool_name : String
  info : List (String × String)
deriving DecidableEq

/-- An output item of an orchestration response payload. -/
inductive OrchOutput where
  | message (content : MsgContent) : OrchOutput
  | handoff (agent_id : Option String) (inputs : Option String) : OrchOutput
  | toolExec (name : Option String) (info : Option InfoObj) : OrchOutput
  | other : OrchOutput

/-- Reverse lookup of a handoff target id in the registry's name-to-id
mapping (`agent_orchestration.py` line 215), defaulting to the
`"Unknown Agent"` sentinel. -/
def resolveAgentName (agent_ids : List (String × String)) (target : String) : String :=
  match agent_ids.find? (fun p => p.2 == target) with
  | some p => p.1
  | none => "Unknown Agent"

/-- The full orchestration payload walk (`agent_orchestration.py` lines
186-247): text, handoff records and tool-execution records, each in payload
order. -/
def orchExtract (agent_ids : List (String × String)) :
    List OrchOutput → String × List HandoffRec × List ToolExecRec
  | [] => ("", [], [])
  | OrchOutput.message c :: rest =>
      let p := orchExtract agent_ids rest
      (msgContentText c ++ p.1, p.2.1, p.2.2)
  | OrchOutput.handoff aid inp :: rest =>
      let p := orchExtract agent_ids rest
      (p.1,
        ⟨resolveAgentName agent_ids (aid.getD ""), aid.getD "", inp.getD ""⟩ :: p.2.1,
        p.2.2)
  | OrchOutput.toolExec n i :: rest =>
      let p := orchExtract agent_ids rest
      (p.1, p.2.1, ⟨n.getD "", extractInfo i⟩ :: p.2.2)
  | OrchOutput.other :: rest => orchExtract agent_ids rest

/- ### Image-generation feature (`display_image_generation_page`) -/

/-- An output item of an image-generation response payload. -/
inductive ImgOutput where
  | message (content : MsgContent) : ImgOutput
  | other : ImgOutput

/-- The mutable extraction state of the image walk: accumulated text and the
last-seen image file reference fields. -/
structure ImgExtractState where
  response_text : String := ""
  image_file_id : Option String := none
  image_file_name : Option String := none
  image_file_type : Option String := none
deriving DecidableEq

/-- Per-sub-item step of the image walk (`image_generation.py` lines
125-147): text fragments accumulate; a `tool_file` sub-item of the
`image_generation` tool overwrites the file-reference fields — on the
key/value shape a missing key overwrites with `None`, on the attribute shape
a missing attribute leaves the previous value. -/
def imgStep (st : ImgExtractState) (ci : ContentItem) : ImgExtractState :=
  match ci with
  | ContentItem.kv fields =>
      if kvGet fields "type" = some "text" then
        { st with response_text := st.response_text ++ (kvGet fields "text").getD "" }
      else if kvGet fields "type" = some "tool_file" ∧ kvGet fields "tool" = some "image_generation" then
        { st with
          image_file_id := kvGet fields "file_id"
        , image_file_name := kvGet fields "file_name"
        , image_file_type := kvGet fields "file_type" }
      else st
  | ContentItem.attr a =>
      match a.ty with
      | none => st
      | some t =>
          if t = "text" then
            { st with response_text := st.response_text ++ a.text.getD "" }
          else if t = "tool_file" ∧ a.tool.isSome then
            if a.tool = some "image_generation" then
              { st with
                image_file_id := (match a.file_id with | some v => some v | none => st.image_file_id)
              , image_file_name := (match a.file_name with | some v => some v | none => st.image_file_name)
              , image_file_type := (match a.file_type with | some v => some v | none => st.image_file_type) }
            else st
          else st

/-- Left-to-right fold of `imgStep` over content sub-items. -/
def imgSteps (st : ImgExtractState) : List ContentItem → ImgExtractState
  | [] => st
  | ci :: rest => imgSteps (imgStep st ci) rest

/-- The full image payload walk (`image_generation.py` lines 118-147). -/
def imgExtract (st : ImgExtractState) : List ImgOutput → ImgExtractState
  | [] => st
  | ImgOutput.message (MsgContent.str s) :: rest =>
      imgExtract { st with response_text := st.response_text ++ s } rest
  | ImgOutput.message (MsgContent.items l) :: rest =>
      imgExtract (imgSteps st l) rest
  | ImgOutput.other :: rest => imgExtract st rest

/-- One chat-history entry of the image-generation feature; the source's
error entry carries no file-name/type keys, read back with `dict.get`, which
the `none` defaults model. -/
structure ImgMsg where
  role : String
  content : String
  image_data : Option String := none
  image_file_name : Option String := none
  image_file_type : Option String := none
deriving DecidableEq

/-- One iteration of the image-generation loop (`image_generation.py` lines
103-175), for zero-based index `i`: on a successful round-trip, extract text
and file reference, download the file when an id is present (`download`
stands for `client.files.download`; its failure only leaves `image_data`
empty), and build the assistant turn; on a raised round-trip, build the
error-content turn instead. -/
def runImageAttempt (i : Nat) (remote : Except String (List ImgOutput))
    (download : String → Except String String) : ImgMsg :=
  match remote with
  | Except.error e =>
      { role := "assistant"
      , content := "Error generating image " ++ toString (i + 1) ++ ": " ++ e }
  | Except.ok outputs =>
      let st := imgExtract {} outputs
      let image_data :=
        match st.image_file_id with
        | none => none
        | some fid =>
            match download fid with
            | Except.ok bs => some bs
            | Except.error _ => none
      { role := "assistant"
      , content :=
          if st.response_text = "" then "Here is generated image " ++ toString (i + 1)
          else st.response_text
      , image_data := image_data
      , image_file_name := st.image_file_name
      , image_file_type := st.image_file_type }

/-- One submit of the image-generation page after agent creation succeeded
(`image_generation.py` lines 96-175): the user turn, then the
`for i in range(2)` loop unrolled — each iteration sits in its own
`try/except`, so each appends exactly one turn regardless of the other. -/
def runImagePage (history : List ImgMsg) (user_prompt : String)
    (remote1 : Except String (List ImgOutput)) (download1 : String → Except String String)
    (remote2 : Except String (List ImgOutput)) (download2 : String → Except String String) :
    List ImgMsg :=
  history ++ [{ role := "user", content := user_prompt }]
    ++ [runImageAttempt 0 remote1 download1]
    ++ [runImageAttempt 1 remote2 download2]

/- ### Specification-side text extraction (for the refinement claim C1) -/

/-- Specification predicate: a content sub-item whose type discriminant is
`"text"`, on either access shape. -/
def isTextTyped : ContentItem → Bool
  | ContentItem.kv fields => kvGet fields "type" == some "text"
  | ContentItem.attr a => a.ty == some "text"

/-- Specification accessor: a content sub-item's text field, empty when
absent. -/
def textFieldOf : ContentItem → String
  | ContentItem.kv fields => (kvGet fields "text").getD ""
  | ContentItem.attr a => a.text.getD ""

/-- Ordered concatenation of a list of strings. -/
def concatAll : List String → String
  | [] => ""
  | s :: rest => s ++ concatAll rest

/-- Specification-side text of one message-output content, following the
spec's words: a single string verbatim; for a list, the ordered concatenation
of only the text-typed sub-items' text fields, non-text sub-items excluded. -/
def specMsgText (c : MsgContent) : String :=
  match c with
  | MsgContent.str s => s
  | MsgContent.items l => concatAll ((l.filter isTextTyped).map textFieldOf)

/-- Specification-side normalized-turn text: concatenation, in payload order,
of every message-output item's text, nothing reordered or deduplicated. -/
def specTurnText (outputs : List FCOutput) : String :=
  concatAll
    (outputs.filterMap
      (fun o =>
        match o with
        | FCOutput.message c => some (specMsgText c)
        | _ => none))

/- ### Sample payloads used to evaluate theorems at concrete inputs -/

/-- A sample image-generation payload carrying one tool-file reference. -/
def sampleImgOutputs : List ImgOutput :=
  [ ImgOutput.message
      (MsgContent.items
        [ ContentItem.kv
            [ ("type", "tool_file"), ("tool", "image_generation")
            , ("file_id", "F1"), ("file_name", "img"), ("file_type", "png") ] ]) ]

/-- A download stub always returning the same bytes. -/
def sampleDownload : String → Except String String := fun _ => Except.ok "BYTES"

/-- A parser stub that always fails (every argument string is malformed). -/
def parseNone : String → Option Json := fun _ => none

/-- A continuation stub whose every continuation payload is one plain text
message. -/
def contFinal : String → Json → List FCOutput :=
  fun _ _ => [FCOutput.message (MsgContent.str "FINAL")]

/-- A sample function-calls payload: an initial message text followed by one
tool-call request for the rate lookup. -/
def sampleFCOutputs : List FCOutput :=
  [ FCOutput.message (MsgContent.str "IGNORED")
  , FCOutput.toolCalls
      (some [{ id := some "call-7"
             , function := some { name := some "get_interest_rate"
                                , arguments := some "not json" } }]) ]

/- ### Helper lemmas -/

theorem contentItemText_eq_spec (ci : ContentItem) :
    contentItemText ci = if isTextTyped ci then textFieldOf ci else "" := by
  cases ci with
  | kv fields => simp [contentItemText, isTextTyped, textFieldOf]
  | attr a =>
      cases h : a.ty with
      | none => simp [contentItemText, isTextTyped, h]
      | some t =>
          by_cases ht : t = "text"
          · subst ht
            cases htext : a.text <;>
              simp [contentItemText, isTextTyped, textFieldOf, h, htext]
          · simp [contentItemText, isTextTyped, textFieldOf, h, ht]

theorem itemsText_eq_spec (l : List ContentItem) :
    itemsText l = concatAll ((l.filter isTextTyped).map textFieldOf) := by
  induction l with
  | nil => rfl
  | cons ci rest ih =>
      by_cases h : isTextTyped ci
      · simp [itemsText, List.filter_cons, h, concatAll, contentItemText_eq_spec, ih]
      · simp [itemsText, List.filter_cons, h, contentItemText_eq_spec, ih]

theorem msgContentText_eq_spec (c : MsgContent) : msgContentText c = specMsgText c := by
  cases c with
  | str s => rfl
  | items l => simpa [msgContentText, specMsgText] using itemsText_eq_spec l

/- ### Claim theorems -/

/-- C1: for every response payload, the normalized turn's text is extracted
as the spec states: a message-output item's single-string content is appended
verbatim, list content contributes the ordered concatenation of only the
`"text"`-typed sub-items' text fields (on both the key/value and the
attribute access shape), in payload order, non-text sub-items excluded,
nothing reordered or deduplicated. -/
theorem text_extraction_matches_spec (outputs : List FCOutput) :
    fcCurrentResponse outputs = specTurnText outputs := by
  induction outputs with
  | nil => rfl
  | cons o rest ih =>
      cases o with
      | message c =>
          simp [fcCurrentResponse, specTurnText, List.filterMap_cons, concatAll,
            msgContentText_eq_spec, ih]
      | toolCalls tcs =>
          simpa [fcCurrentResponse, specTurnText, List.filterMap_cons] using ih
      | other =>
          simpa [fcCurrentResponse, specTurnText, List.filterMap_cons] using ih

/-- C2 counterexample: the records returned for region `"us"` and region
`"US"` are not the same record — the `region` field echoes the caller's
casing verbatim, so the two full records differ. -/
theorem rate_lookup_case_records_differ :
    get_interest_rate "us" none "2024-01-01" ≠ get_interest_rate "US" none "2024-01-01" := by
  decide

/-- C2 (amended): the rate lookup is case-insensitive against its fixed
region table in the sense that two regions with the same lowercasing yield
the same entry-determined fields (interest rate, central bank, last-updated)
— in particular `"us"` and `"US"` resolve to the same table entry — while
the `region` field of the returned record echoes the caller's original
casing; a region with no match (e.g. `"Mars"`) returns an error record with
a message and the list of valid region keys. -/
theorem rate_lookup_case_insensitive (r1 r2 : String) (date : Option String)
    (today : String) (h : strLower r1 = strLower r2) :
    rateOutcome (get_interest_rate r1 date today)
        = rateOutcome (get_interest_rate r2 date today)
      ∧ (∀ d ir cb lu, get_interest_rate r1 date today = RateResult.ok r1 d ir cb lu
          → get_interest_rate r2 date today = RateResult.ok r2 d ir cb lu)
      ∧ get_interest_rate "Mars" date today
          = RateResult.err "No interest rate data available for Mars"
              ["us", "ecb", "uk", "japan", "australia", "canada"] := by
  have hMars : findRate (strLower "Mars") = none := by decide
  have hkeys : rates.map Prod.fst = ["us", "ecb", "uk", "japan", "australia", "canada"] := by
    decide
  refine ⟨?_, ?_, ?_⟩
  · unfold get_interest_rate
    rw [h]
    cases hfind : findRate (strLower r2) <;> simp [rateOutcome, hfind]
  · intro d ir cb lu hok
    unfold get_interest_rate at hok ⊢
    rw [h] at hok
    cases hfind : findRate (strLower r2) with
    | none => rw [hfind] at hok; simp at hok
    | some info =>
        rw [hfind] at hok
        simp only [RateResult.ok.injEq] at hok
        simp [hfind, hok.2.1, hok.2.2.1, hok.2.2.2.1, hok.2.2.2.2]
  · unfold get_interest_rate
    rw [hMars, hkeys]
    norm_num
    rfl

/-- C2 witness: the amended theorem applied at regions `"us"` and `"US"`,
whose lowercasings agree, with the resolved fields evaluated concretely. -/
theorem rate_lookup_case_insensitive_witness :
    rateOutcome (get_interest_rate "us" none "2024-01-01")
        = rateOutcome (get_interest_rate "US" none "2024-01-01")
      ∧ get_interest_rate "US" none "2024-01-01"
          = RateResult.ok "US" "2024-01-01" "5.5%" "Federal Reserve" "2023-12-13"
      ∧ get_interest_rate "Mars" none "2024-01-01"
          = RateResult.err "No interest rate data available for Mars"
              ["us", "ecb", "uk", "japan", "australia", "canada"] := by
  obtain ⟨h1, h2, h3⟩ :=
    rate_lookup_case_insensitive "us" "US" none "2024-01-01" (by decide)
  exact ⟨h1, h2 "2024-01-01" "5.5%" "Federal Reserve" "2023-12-13" (by decide), h3⟩

/-- C3: for every input with principal ≥ 0, annual rate ≥ 0 and term > 0
(with an integral number of monthly payments, the regime in which the
rational embedding of Python's `**` is exact), the loan calculator computes
monthlyRate = annualRate/100/12 and totalPayments = termYears*12, takes the
flat branch monthlyPayment = principal/totalPayments exactly when the monthly
rate is zero and the standard annuity formula otherwise, rounds
monthlyPayment, totalPayment and totalInterest to 2 decimal places, and
echoes totalPayments and the inputs back unrounded — i.e. it returns exactly
the record built from the specification's formulas. -/
theorem loan_payment_matches_spec (p r t : ℚ) (hp : 0 ≤ p) (hr : 0 ≤ r)
    (ht : 0 < t) (hint : (t * 12).den = 1) :
    calculate_loan_payment p r t = some (loanPaymentSpec p r t) := by
  have htp0 : (0 : ℚ) < t * 12 := by positivity
  have htp : t * 12 ≠ 0 := ne_of_gt htp0
  by_cases hmr : r / 100 / 12 = 0
  · simp only [calculate_loan_payment, loanPaymentSpec, if_pos hmr, safeDiv, if_neg htp]
  · have hr0 : r ≠ 0 := by
      intro h0
      exact hmr (by rw [h0]; norm_num)
    have hrpos : 0 < r := lt_of_le_of_ne hr (Ne.symm hr0)
    have hmrpos : 0 < r / 100 / 12 := by positivity
    have hnum : 0 < (t * 12).num := Rat.num_pos.mpr htp0
    have hn : (t * 12).num.toNat ≠ 0 := by omega
    have hx : (1 : ℚ) < 1 + r / 100 / 12 := by linarith
    have hpow : 1 < qpow (1 + r / 100 / 12) (t * 12) := by
      unfold qpow
      exact one_lt_pow₀ hx hn
    have hd : qpow (1 + r / 100 / 12) (t * 12) - 1 ≠ 0 :=
      sub_ne_zero.mpr (ne_of_gt hpow)
    simp only [calculate_loan_payment, loanPaymentSpec, if_neg hmr, safeDiv, if_neg hd]
    have hassoc :
        p * (r / 100 / 12 * qpow (1 + r / 100 / 12) (t * 12))
          = p * (r / 100 / 12) * qpow (1 + r / 100 / 12) (t * 12) := by ring
    rw [hassoc]

/-- C3 witness: the theorem applied at the zero-rate boundary input
principal = 12000, rate = 0, term = 1 year, whose spec record evaluates to
monthlyPayment = 1000.00 and totalInterest = 0.00 exactly. -/
theorem loan_payment_matches_spec_witness :
    calculate_loan_payment 12000 0 1 = some (loanPaymentSpec 12000 0 1)
      ∧ (loanPaymentSpec 12000 0 1).monthly_payment = 1000
      ∧ (loanPaymentSpec 12000 0 1).total_interest = 0 := by
  have hflat : ((12000 : ℚ) / (1 * 12)) = 1000 := by norm_num
  have hround : round2 (1000 : ℚ) = 1000 := by
    unfold round2 roundHalfEven
    norm_num [Rat.floor_def']
  have hround0 : round2 (0 : ℚ) = 0 := by
    unfold round2 roundHalfEven
    norm_num [Rat.floor_def']
  refine ⟨loan_payment_matches_spec 12000 0 1 (by norm_num) le_rfl (by norm_num)
    (by norm_num), ?_, ?_⟩
  · have h1 : (loanPaymentSpec 12000 0 1).monthly_payment = round2 1000 := by
      norm_num [loanPaymentSpec]
    rw [h1, hround]
  · have h2 : (loanPaymentSpec 12000 0 1).total_interest = round2 0 := by
      norm_num [loanPaymentSpec]
    rw [h2, hround0]

/-- C10: `calculate_loan_payment` hits a division by zero for every input
with term_years = 0 — the zero-rate branch divides the principal by zero
payments, and the nonzero-rate branch's denominator (1+monthlyRate)^0 − 1 is
zero — and the function-call dispatcher substitutes 0 for a missing
`term_years` argument, so the error is reachable from a function-call request
that omits `term_years`. -/
theorem loan_zero_term_divides_by_zero :
    (∀ p r : ℚ, calculate_loan_payment p r 0 = none)
      ∧ (∀ fields : List (String × Json), jlookup fields "term_years" = none
          → dictGet (Json.obj fields) "term_years" (Json.num 0) = Except.ok (Json.num 0))
      ∧ (∀ (today cid : String) (p r : ℚ),
          execFunction today
              ⟨cid, "calculate_loan_payment",
                Json.obj [("principal", Json.num p), ("annual_interest_rate", Json.num r)]⟩
            = Except.error "division by zero") := by
  have hq0 : ∀ x : ℚ, qpow x 0 = 1 := by
    intro x
    unfold qpow
    norm_num
  have hz : ∀ p r : ℚ, calculate_loan_payment p r 0 = none := by
    intro p r
    by_cases hmr : r / 100 / 12 = 0
    · simp [calculate_loan_payment, hmr, safeDiv]
    · simp [calculate_loan_payment, hmr, safeDiv, hq0]
  refine ⟨hz, ?_, ?_⟩
  · intro fields hmiss
    simp [dictGet, hmiss]
  · intro today cid p r
    simp [execFunction, dictGet, jlookup, asNumber, hz, Bind.bind, Except.bind]

/-- C10 witness: the dispatcher part applied at a concrete argument mapping
omitting `term_years`, and the executor at concrete numbers. -/
theorem loan_zero_term_divides_by_zero_witness :
    calculate_loan_payment 12000 5 0 = none
      ∧ dictGet (Json.obj [("principal", Json.num 300000)]) "term_years" (Json.num 0)
          = Except.ok (Json.num 0)
      ∧ execFunction "2024-01-01"
            ⟨"call-1", "calculate_loan_payment",
              Json.obj [("principal", Json.num 300000), ("annual_interest_rate", Json.num 5)]⟩
          = Except.error "division by zero" := by
  obtain ⟨h1, h2, h3⟩ := loan_zero_term_divides_by_zero
  exact ⟨h1 12000 5, h2 [("principal", Json.num 300000)] (by simp [jlookup]),
    h3 "2024-01-01" "call-1" 300000 5⟩

/-- C4: for every tool-call-request item, the extracted argument string is
parsed as structured JSON data; when parsing fails the raw argument string is
not discarded but wrapped under the `"raw_args"` sentinel key of the pending
record's arguments mapping (and when parsing succeeds the parsed value is
used). -/
theorem parse_failure_wraps_raw_args (parse : String → Option Json)
    (tc : RawToolCall) (f : RawFunction) (s : String)
    (hf : tc.function = some f) (ha : f.arguments = some s) :
    (parse s = none →
        extractToolCall parse tc
          = some
              { tool_call_id := tc.id.getD ""
              , function_name := f.name.getD ""
              , arguments := Json.obj [("raw_args", Json.str s)] })
      ∧ ∀ j, parse s = some j →
          extractToolCall parse tc
            = some
                { tool_call_id := tc.id.getD ""
                , function_name := f.name.getD ""
                , arguments := j } := by
  constructor
  · intro hp
    simp [extractToolCall, hf, ha, hp]
  · intro j hp
    simp [extractToolCall, hf, ha, hp]

/-- C4 witness: the theorem applied to a concrete request whose argument
string fails to parse; the raw string survives under the sentinel key. -/
theorem parse_failure_wraps_raw_args_witness :
    extractToolCall parseNone
        { id := some "call-7"
        , function := some { name := some "get_interest_rate", arguments := some "not json" } }
      = some
          { tool_call_id := "call-7"
          , function_name := "get_interest_rate"
          , arguments := Json.obj [("raw_args", Json.str "not json")] } := by
  exact (parse_failure_wraps_raw_args parseNone
    { id := some "call-7"
    , function := some { name := some "get_interest_rate", arguments := some "not json" } }
    { name := some "get_interest_rate", arguments := some "not json" }
    "not json" rfl rfl).1 rfl

/-- C5: a tool-execution item whose info object fails extraction yields an
empty mapping instead of aborting normalization — `extractInfo` maps the
failing shape to the empty mapping, the tool-execution records of a payload
are exactly its tool-execution items in payload order (none discarded), and
on a concrete mixed payload the malformed record sits between the two
well-formed ones, all three extracted. -/
theorem malformed_tool_info_isolated :
    extractInfo (some InfoObj.objBad) = []
      ∧ (∀ (agent_ids : List (String × String)) (outputs : List OrchOutput),
          (orchExtract agent_ids outputs).2.2
            = outputs.filterMap
                (fun o =>
                  match o with
                  | OrchOutput.toolExec n i => some ⟨n.getD "", extractInfo i⟩
                  | _ => none))
      ∧ orchExtract []
            [ OrchOutput.toolExec (some "code_interpreter")
                (some (InfoObj.objDict [("code", "1+1")]))
            , OrchOutput.toolExec (some "web_search") (some InfoObj.objBad)
            , OrchOutput.toolExec (some "image_generation")
                (some (InfoObj.mapping [("k", "v")])) ]
          = ("", [],
              [ ⟨"code_interpreter", [("code", "1+1")]⟩
              , ⟨"web_search", []⟩
              , ⟨"image_generation", [("k", "v")]⟩ ]) := by
  refine ⟨rfl, ?_, rfl⟩
  intro agent_ids outputs
  induction outputs with
  | nil => rfl
  | cons o rest ih => cases o <;> simp [orchExtract, List.filterMap_cons, ih]

/-- C7: handoff target ids are resolved by reverse lookup in the registry's
name-to-id mapping — `"id-123"` resolves to `"calculator"` under the registry
mapping `"calculator"` to `"id-123"`, an unknown `"id-999"` resolves to the
`"Unknown Agent"` sentinel — and the handoff records of a payload are exactly
its handoff items in payload order. -/
theorem handoff_resolution :
    resolveAgentName [("calculator", "id-123")] "id-123" = "calculator"
      ∧ resolveAgentName [("calculator", "id-123")] "id-999" = "Unknown Agent"
      ∧ (∀ (agent_ids : List (String × String)) (outputs : List OrchOutput),
          (orchExtract agent_ids outputs).2.1
            = outputs.filterMap
                (fun o =>
                  match o with
                  | OrchOutput.handoff aid inp =>
                      some ⟨resolveAgentName agent_ids (aid.getD ""), aid.getD "",
                        inp.getD ""⟩
                  | _ => none)) := by
  refine ⟨rfl, rfl, ?_⟩
  intro agent_ids outputs
  induction outputs with
  | nil => rfl
  | cons o rest ih => cases o <;> simp [orchExtract, List.filterMap_cons, ih]

/-- C6: every transport/authentication failure of the remote call is surfaced
as an error-content assistant turn appended to the feature's history — the
message text appearing verbatim after the `"Error: "` prefix — with every
previously appended turn preserved, in both the function-calls and the
web-search feature. -/
theorem transport_failures_recorded_as_error_turns :
    (∀ (today : String) (parse : String → Option Json)
        (cont : String → Json → List FCOutput) (e : String)
        (history : List FCMsg) (prompt : String),
        runFunctionCallsSubmit today parse cont (Except.error e) history prompt
          = history
              ++ [ { role := "user", content := prompt }
                 , { role := "assistant", content := "Error: " ++ e } ])
      ∧ (∀ (e : String) (history : List WSMsg) (prompt : String),
          runWebSearchSubmit (Except.error e) history prompt
            = history
                ++ [ { role := "user", content := prompt }
                   , { role := "assistant", content := "Error: " ++ e } ]) := by
  constructor
  · intro today parse cont e history prompt
    simp [runFunctionCallsSubmit, Bind.bind, Except.bind]
  · intro e history prompt
    simp [runWebSearchSubmit]

/-- C8: the image-generation flow issues exactly two sequential independent
remote round-trips (the unrolled two-iteration loop of `runImagePage`), and a
failure during the second round-trip does not discard the first's result: the
first assistant turn — with whatever image data its download produced —
stays appended to the history while the second failure is recorded as its own
error turn; moreover, when the first round-trip yields a file id whose
download succeeds, the first turn carries exactly those bytes. -/
theorem second_image_failure_preserves_first :
    (∀ (history : List ImgMsg) (prompt : String) (outs1 : List ImgOutput)
        (dl1 dl2 : String → Except String String) (e : String),
        runImagePage history prompt (Except.ok outs1) dl1 (Except.error e) dl2
          = history
              ++ [ { role := "user", content := prompt }
                 , runImageAttempt 0 (Except.ok outs1) dl1
                 , { role := "assistant"
                   , content := "Error generating image 2: " ++ e } ])
      ∧ (∀ (outs : List ImgOutput) (dl : String → Except String String) (fid bs : String),
          (imgExtract {} outs).image_file_id = some fid → dl fid = Except.ok bs →
            (runImageAttempt 0 (Except.ok outs) dl).image_data = some bs) := by
  constructor
  · intro history prompt outs1 dl1 dl2 e
    have hs : "Error generating image " ++ toString (1 + 1) ++ ": " ++ e
        = "Error generating image 2: " ++ e := by
      have h0 : "Error generating image " ++ toString (1 + 1) ++ ": "
          = "Error generating image 2: " := rfl
      exact congrArg (fun s => s ++ e) h0
    show history ++ [{ role := "user", content := prompt }]
        ++ [runImageAttempt 0 (Except.ok outs1) dl1]
        ++ [runImageAttempt 1 (Except.error e) dl2] = _
    rw [show runImageAttempt 1 (Except.error e) dl2
      = { role := "assistant", content := "Error generating image " ++ toString (1 + 1) ++ ": " ++ e }
      from rfl, hs]
    simp
  · intro outs dl fid bs hfid hdl
    simp [runImageAttempt, hfid, hdl]

/-- C8 witness: the theorem applied to a concrete run whose first round-trip
returns a tool-file reference downloaded successfully and whose second
round-trip raises; the first turn keeps its bytes. -/
theorem second_image_failure_preserves_first_witness :
    runImagePage [] "a cat" (Except.ok sampleImgOutputs) sampleDownload
        (Except.error "boom") sampleDownload
      = [ { role := "user", content := "a cat" }
        , runImageAttempt 0 (Except.ok sampleImgOutputs) sampleDownload
        , { role := "assistant", content := "Error generating image 2: boom" } ]
      ∧ (runImageAttempt 0 (Except.ok sampleImgOutputs) sampleDownload).image_data
          = some "BYTES" := by
  constructor
  · exact (second_image_failure_preserves_first).1 [] "a cat" sampleImgOutputs
      sampleDownload sampleDownload "boom"
  · exact (second_image_failure_preserves_first).2 sampleImgOutputs sampleDownload
      "F1" "BYTES" rfl rfl

/-- C9: when the initial function-calls response contains at least one
pending function-call request, the assistant turn's recorded content is only
the text accumulated from the continuation responses (`runCalls`) — in
particular it is the same for any two initial payloads extracting the same
pending calls, so the initial message text is discarded; when the initial
response contains no function-call requests, the recorded content equals the
initial response's extracted text. -/
theorem final_content_from_continuations (today : String)
    (parse : String → Option Json) (cont : String → Json → List FCOutput)
    (outputs : List FCOutput) (m : FCMsg)
    (hok : runFCTurn today parse cont outputs = Except.ok m) :
    (extractFunctionCalls parse outputs = [] → m.content = fcCurrentResponse outputs)
      ∧ (∀ res fin,
          runCalls today cont (extractFunctionCalls parse outputs) = Except.ok (res, fin)
            → extractFunctionCalls parse outputs ≠ [] → m.content = fin)
      ∧ (∀ (outputs2 : List FCOutput) (m2 : FCMsg),
          runFCTurn today parse cont outputs2 = Except.ok m2
            → extractFunctionCalls parse outputs2 = extractFunctionCalls parse outputs
            → extractFunctionCalls parse outputs ≠ []
            → m2.content = m.content) := by
  have hchar : ∀ outs : List FCOutput,
      runFCTurn today parse cont outs
        = Except.bind (runCalls today cont (extractFunctionCalls parse outs))
            (fun pr =>
              Except.ok
                { role := "assistant"
                , content :=
                    if (extractFunctionCalls parse outs).isEmpty then fcCurrentResponse outs
                    else pr.2
                , function_calls := extractFunctionCalls parse outs
                , function_results := pr.1 }) :=
    fun _ => rfl
  have key : ∀ (outs : List FCOutput) (m' : FCMsg),
      runFCTurn today parse cont outs = Except.ok m' →
        ∃ rs fin, runCalls today cont (extractFunctionCalls parse outs) = Except.ok (rs, fin)
          ∧ m'.content
              = (if (extractFunctionCalls parse outs).isEmpty then fcCurrentResponse outs
                 else fin) := by
    intro outs m' h
    rw [hchar outs] at h
    cases hrc : runCalls today cont (extractFunctionCalls parse outs) with
    | error e =>
        rw [hrc] at h
        simp [Except.bind] at h
    | ok pr =>
        obtain ⟨rs, fin⟩ := pr
        rw [hrc] at h
        simp only [Except.bind, Except.ok.injEq] at h
        subst h
        exact ⟨rs, fin, rfl, rfl⟩
  obtain ⟨rs, fin, hrc, hc⟩ := key outputs m hok
  refine ⟨?_, ?_, ?_⟩
  · intro hnil
    rw [hc, hnil]
    simp
  · intro res fin2 hrc2 hne
    rw [hrc] at hrc2
    have hfin : fin2 = fin := by
      have := hrc2
      simp only [Except.ok.injEq, Prod.mk.injEq] at this
      exact this.2.symm
    have hempty : (extractFunctionCalls parse outputs).isEmpty = false := by
      simp [List.isEmpty_iff, hne]
    rw [hc, hempty, hfin]
    simp
  · intro outputs2 m2 hok2 heq hne
    obtain ⟨rs2, fin2, hrc2, hc2⟩ := key outputs2 m2 hok2
    rw [heq] at hrc2
    rw [hrc] at hrc2
    have hfin : fin2 = fin := by
      simp only [Except.ok.injEq, Prod.mk.injEq] at hrc2
      exact hrc2.2.symm
    have hempty : (extractFunctionCalls parse outputs).isEmpty = false := by
      simp [List.isEmpty_iff, hne]
    rw [hc2, heq, hempty, hfin, hc, hempty]
    simp

/-- C9 witness: a concrete run whose initial payload carries the message text
`"IGNORED"` and one pending rate-lookup call; the recorded content is the
continuation text `"FINAL"`, not the initial text. -/
theorem final_content_from_continuations_witness :
    ∃ m : FCMsg, runFCTurn "2024-01-01" parseNone contFinal sampleFCOutputs = Except.ok m
      ∧ m.content = "FINAL" ∧ fcCurrentResponse sampleFCOutputs = "IGNORED" := by
  have hrun : runFCTurn "2024-01-01" parseNone contFinal sampleFCOutputs
      = Except.ok
          { role := "assistant"
          , content := "FINAL"
          , function_calls :=
              [ { tool_call_id := "call-7"
                , function_name := "get_interest_rate"
                , arguments := Json.obj [("raw_args", Json.str "not json")] } ]
          , function_results :=
              [ { tool_call_id := "call-7"
                , function_name := "get_interest_rate"
                , result := rateResultJson (get_interest_rate "" none "2024-01-01") } ] } := by
    rfl
  refine ⟨_, hrun, ?_, rfl⟩
  have h := (final_content_from_continuations "2024-01-01" parseNone contFinal
    sampleFCOutputs _ hrun).2.1
  exact h _ "FINAL" rfl (by simp [sampleFCOutputs, extractFunctionCalls, extractToolCall, parseNone])

end MistralAgentsApp
